import Mathlib

/-!
Verification of the GraphQL WebSocket subscriptions server
(`src/index.js`): the `sendMessage` mutation resolver, the shared
`idCounter`, the three timer-driven sample generators, and the pub/sub
fan-out contract. All definitions are shallow embeddings of the
JavaScript source; timestamps (`new Date().toISOString()`) are modelled
as an explicit `now : String` parameter and `Math.random()` as an
explicit rational in `[0, 1)`.
-/

namespace GraphQLSub

/-- The `Message` GraphQL object type (typeDefs, `src/index.js` lines 12-20).
`id : ID!` is a string in GraphQL; the resolvers build it with
`String(idCounter++)`. -/
structure Message where
  id : String
  text : String
  createdAt : String
  author : String
  channel : String
  important : Bool
  tags : List String
deriving Repr, DecidableEq

/-- The `SystemStatus` GraphQL object type (lines 22-26). `load : Float!`
is modelled as a rational, since the only operations applied to it
(`Math.random() * 1.5 + 0.1` and `.toFixed(2)`) stay well inside the
exactly-representable range. -/
structure SystemStatus where
  online : Bool
  load : ℚ
  updatedAt : String
deriving Repr, DecidableEq

/-- The `Settings` GraphQL object type (lines 28-32). -/
structure Settings where
  theme : String
  lang : String
  updatedAt : String
deriving Repr, DecidableEq

/-- Topic constant `MESSAGE_ADDED` (line 56). -/
def MESSAGE_ADDED : String := "MESSAGE_ADDED"

/-- Topic constant `SYSTEM_STATUS_CHANGED` (line 57). -/
def SYSTEM_STATUS_CHANGED : String := "SYSTEM_STATUS_CHANGED"

/-- Topic constant `SETTINGS_UPDATED` (line 58). -/
def SETTINGS_UPDATED : String := "SETTINGS_UPDATED"

/-- Initial value of the process-wide counter: `let idCounter = 1`
(line 60). -/
def idCounterInit : Nat := 1

/-- A payload published on the pub/sub bus: the three subscription root
fields carry three distinct object types. -/
inductive Payload where
  | message (m : Message)
  | status (s : SystemStatus)
  | settings (s : Settings)
deriving Repr, DecidableEq

/-- One call to `pubsub.publish(topic, { field: payload })`: the topic
string, the subscription field name the payload is wrapped under, and
the payload itself. -/
structure Publication where
  topic : String
  field : String
  payload : Payload
deriving Repr, DecidableEq

/-- The raw arguments of `Mutation.sendMessage` as they arrive over the
wire, before GraphQL argument coercion: `text : String!` has no
default, the other four are optional with schema defaults
(typeDefs lines 38-46). `none` means the argument was not supplied. -/
structure RawSendMessageArgs where
  text : Option String
  author : Option String
  channel : Option String
  important : Option Bool
  tags : Option (List String)
deriving Repr, DecidableEq

/-- The coerced arguments the resolver receives after GraphQL has
applied the schema defaults `author = "user"`, `channel = "general"`,
`important = false`, `tags = []`. -/
structure SendMessageArgs where
  text : String
  author : String
  channel : String
  important : Bool
  tags : List String
deriving Repr, DecidableEq

/-- GraphQL argument coercion for `sendMessage` (typeDefs lines 38-46):
`text : String!` is required, so a request omitting it fails validation
before the resolver runs; every other argument falls back to its schema
default when omitted. No other check is performed — in particular the
empty string is a legal `String!` value. -/
def coerceSendMessageArgs (raw : RawSendMessageArgs) :
    Except String SendMessageArgs :=
  match raw.text with
  | none => Except.error
      "Field sendMessage argument text of type String! is required, but it was not provided."
  | some t => Except.ok
      { text := t
        author := raw.author.getD "user"
        channel := raw.channel.getD "general"
        important := raw.important.getD false
        tags := raw.tags.getD [] }

/-- The `Mutation.sendMessage` resolver (`src/index.js` lines 67-80).
It destructures only `text` from its arguments, builds a message with
`id = String(idCounter++)`, `createdAt` = current time, and the
hard-coded `author`/`channel`/`important`/`tags`, publishes
`{ messageAdded: message }` on `MESSAGE_ADDED`, and returns the same
message. Returns (returned message, publication, new counter). -/
def sendMessage (args : SendMessageArgs) (idCounter : Nat) (now : String) :
    Message × Publication × Nat :=
  let message : Message :=
    { id := toString idCounter
      text := args.text
      createdAt := now
      author := "user"
      channel := "general"
      important := false
      tags := [] }
  (message,
   { topic := MESSAGE_ADDED, field := "messageAdded",
     payload := Payload.message message },
   idCounter + 1)

/-- The whole `sendMessage` call as seen by a client: argument coercion
followed by the resolver. -/
def sendMessageCall (raw : RawSendMessageArgs) (idCounter : Nat)
    (now : String) : Except String (Message × Publication × Nat) :=
  (coerceSendMessageArgs raw).map fun args => sendMessage args idCounter now

/-- One observable step of the resolver body: a publish on the bus or
the return of the result to the caller. -/
inductive ResolverEvent where
  | publish (p : Publication)
  | ret (m : Message)
deriving Repr, DecidableEq

/-- The event trace of one `sendMessage` resolver run: the body is
`await pubsub.publish(MESSAGE_ADDED, ...); return message;`
(lines 78-79), so the publish is awaited to completion strictly before
the return happens. -/
def sendMessageTrace (args : SendMessageArgs) (idCounter : Nat)
    (now : String) : List ResolverEvent :=
  let r := sendMessage args idCounter now
  [ResolverEvent.publish r.2.1, ResolverEvent.ret r.1]

/-- One tick of the 5-second message generator
(`src/index.js` lines 140-151). It builds
`id = String(idCounter++)` — reading the counter, then incrementing —
and then the template string `` `Server message #${idCounter}` ``,
which reads the counter again AFTER the increment. Returns
(message, publication, new counter). -/
def messageGeneratorTick (idCounter : Nat) (now : String) :
    Message × Publication × Nat :=
  let id := toString idCounter
  let counterAfter := idCounter + 1
  let message : Message :=
    { id := id
      text := "Server message #" ++ toString counterAfter
      createdAt := now
      author := "server"
      channel := "news"
      important := false
      tags := ["auto"] }
  (message,
   { topic := MESSAGE_ADDED, field := "messageAdded",
     payload := Payload.message message },
   counterAfter)

/-- JavaScript `Number((x).toFixed(2))`: decimal rounding to two places,
modelled over ℚ as round-to-nearest on hundredths. -/
def toFixed2 (x : ℚ) : ℚ := (round (100 * x) : ℤ) / 100

/-- One tick of the 7-second status generator (lines 154-161):
`load = Number((Math.random() * 1.5 + 0.1).toFixed(2))`, with
`Math.random()` modelled as the parameter `r ∈ [0, 1)`. -/
def statusGeneratorTick (r : ℚ) (now : String) :
    SystemStatus × Publication :=
  let status : SystemStatus :=
    { online := true
      load := toFixed2 (r * (3 / 2) + 1 / 10)
      updatedAt := now }
  (status,
   { topic := SYSTEM_STATUS_CHANGED, field := "systemStatusChanged",
     payload := Payload.status status })

/-- One tick of the 9-second settings generator (lines 164-171), with
the two `Math.random()` draws modelled as parameters. -/
def settingsGeneratorTick (r1 r2 : ℚ) (now : String) :
    Settings × Publication :=
  let settings : Settings :=
    { theme := if r1 > 1 / 2 then "dark" else "light"
      lang := if r2 > 1 / 2 then "ja" else "en"
      updatedAt := now }
  (settings,
   { topic := SETTINGS_UPDATED, field := "settingsUpdated",
     payload := Payload.settings settings })

/-- An operation that draws from the shared `idCounter`: a `sendMessage`
call or a message-generator tick. (The status and settings generators
never touch the counter.) -/
inductive Op where
  | send (args : SendMessageArgs) (now : String)
  | genTick (now : String)
deriving Repr, DecidableEq

/-- Run one counter-drawing operation against the shared counter,
returning the message it built and the new counter. -/
def runOp : Op → Nat → Message × Nat
  | Op.send args now, c =>
      ((sendMessage args c now).1, (sendMessage args c now).2.2)
  | Op.genTick now, c =>
      ((messageGeneratorTick c now).1, (messageGeneratorTick c now).2.2)

/-- Run an arbitrary interleaving of `sendMessage` calls and message
generator ticks, threading the shared counter through; returns the
messages in issuance order and the final counter. -/
def runOps : List Op → Nat → List Message × Nat
  | [], c => ([], c)
  | op :: rest, c =>
      let r := runOp op c
      let rs := runOps rest r.2
      (r.1 :: rs.1, rs.2)

/-- The numeric counter values consumed by an interleaving, in
issuance order (each operation reads the current counter as its id,
then increments). -/
def issuedIds : List Op → Nat → List Nat
  | [], _ => []
  | op :: rest, c => c :: issuedIds rest (runOp op c).2

/-- Modelled from the spec: the Topic Registry / Event Channel of the
`graphql-subscriptions` `PubSub` (an external library, not under
`src/`): each subscription owns an ordered, unbounded queue of pending
events; the registry maps topics to the registered queues. -/
structure Subscriber where
  topic : String
  queue : List Payload
deriving Repr, DecidableEq

/-- Modelled from the spec: `publish(topic, payload)` delivers the
payload to every queue currently registered under the topic, in
registration order, by appending it at the tail; other topics'
queues are untouched. -/
def pubsubPublish (topic : String) (p : Payload)
    (subs : List Subscriber) : List Subscriber :=
  subs.map fun s =>
    if s.topic = topic then { s with queue := s.queue ++ [p] } else s

/-- Modelled from the spec: `subscribe(topic)` registers a fresh empty
queue under the topic (no replay of earlier events). -/
def pubsubSubscribe (topic : String) (subs : List Subscriber) :
    List Subscriber :=
  subs ++ [{ topic := topic, queue := [] }]

/-- C1: every `sendMessage(text = t)` call returns a Message with
`text = t`, `author = "user"`, `channel = "general"`,
`important = false`, `tags = []`, a freshly allocated counter id, and
`createdAt` stamped with the publish-time clock; the payload published
on the `MESSAGE_ADDED` channel is the very message returned — and all
of this holds whatever `author`/`channel`/`important`/`tags` arguments
the caller supplied. -/
theorem C1_sendMessage_roundtrip (args : SendMessageArgs) (c : Nat)
    (now : String) :
    (sendMessage args c now).1.text = args.text ∧
    (sendMessage args c now).1.author = "user" ∧
    (sendMessage args c now).1.channel = "general" ∧
    (sendMessage args c now).1.important = false ∧
    (sendMessage args c now).1.tags = [] ∧
    (sendMessage args c now).1.id = toString c ∧
    (sendMessage args c now).2.2 = c + 1 ∧
    (sendMessage args c now).1.createdAt = now ∧
    (sendMessage args c now).2.1.topic = MESSAGE_ADDED ∧
    (sendMessage args c now).2.1.payload
      = Payload.message (sendMessage args c now).1 :=
  ⟨rfl, rfl, rfl, rfl, rfl, rfl, rfl, rfl, rfl, rfl⟩

/-- C3 counterexample: the claim says `sendMessage` fails when `text`
is empty, but a call supplying the empty string succeeds: the schema
only enforces `String!` (non-null), and the resolver performs no
non-emptiness check. -/
theorem C3_counterexample_empty_text_succeeds :
    sendMessageCall
        { text := some "", author := none, channel := none,
          important := none, tags := none } 1 "2026-01-01T00:00:00.000Z"
      = Except.ok
          (sendMessage
            { text := "", author := "user", channel := "general",
              important := false, tags := [] } 1
            "2026-01-01T00:00:00.000Z") := rfl

/-- C3 (amended): `sendMessage` fails, as a validation error before the
resolver runs, exactly when the required `text` argument is missing;
every supplied `text` value — the empty string included — succeeds, and
no other input condition causes an error. -/
theorem C3_sendMessage_fails_iff_text_missing (raw : RawSendMessageArgs)
    (c : Nat) (now : String) :
    (∃ e, sendMessageCall raw c now = Except.error e) ↔ raw.text = none := by
  cases h : raw.text <;>
    simp [sendMessageCall, coerceSendMessageArgs, h, Except.map]

/-- C4: every message-generator tick publishes exactly one Message on
the `MESSAGE_ADDED` channel with `author = "server"`,
`channel = "news"`, `tags = ["auto"]`, whose text contains the current
value of the shared counter — the value the counter holds when the
text template is evaluated, i.e. after the tick's own increment. -/
theorem C4_messageGenerator_tick (c : Nat) (now : String) :
    (messageGeneratorTick c now).1.author = "server" ∧
    (messageGeneratorTick c now).1.channel = "news" ∧
    (messageGeneratorTick c now).1.tags = ["auto"] ∧
    (messageGeneratorTick c now).2.1.topic = MESSAGE_ADDED ∧
    (messageGeneratorTick c now).2.1.payload
      = Payload.message (messageGeneratorTick c now).1 ∧
    ∃ pre post, (messageGeneratorTick c now).1.text
      = pre ++ toString ((messageGeneratorTick c now).2.2) ++ post := by
  refine ⟨rfl, rfl, rfl, rfl, rfl, "Server message #", "", ?_⟩
  simp [messageGeneratorTick]

/-- C7: the resolver body of `sendMessage` is
`await pubsub.publish(...); return message;`: in its event trace the
publish occurs strictly before the return, and the return is the final
event — the result is never handed back with the publish pending. -/
theorem C7_publish_before_return (args : SendMessageArgs) (c : Nat)
    (now : String) :
    ∃ i j : Nat, i < j ∧
      (sendMessageTrace args c now)[i]?
        = some (ResolverEvent.publish (sendMessage args c now).2.1) ∧
      (sendMessageTrace args c now)[j]?
        = some (ResolverEvent.ret (sendMessage args c now).1) ∧
      j + 1 = (sendMessageTrace args c now).length :=
  ⟨0, 1, Nat.zero_lt_one, rfl, rfl, rfl⟩

/-- C9: in every message-generator tick the number interpolated into
the text is read from the counter after the post-increment that
produced the id, so it equals the message's own numeric id plus one —
and therefore never equals the id. -/
theorem C9_generated_text_is_id_plus_one (c : Nat) (now : String) :
    (messageGeneratorTick c now).1.id = toString c ∧
    (messageGeneratorTick c now).1.text
      = "Server message #" ++ toString (c + 1) ∧
    c + 1 ≠ c :=
  ⟨rfl, rfl, Nat.succ_ne_self c⟩

/-- C10: the resolver destructures only `text`, so two calls in the
same counter and clock state with equal `text` produce identical
results and publications, whatever the other four arguments are. -/
theorem C10_result_independent_of_extra_args (a1 a2 : SendMessageArgs)
    (c : Nat) (now : String) (h : a1.text = a2.text) :
    sendMessage a1 c now = sendMessage a2 c now := by
  simp [sendMessage, h]

/-- Witness for C10 at concrete inputs: maximally different
`author`/`channel`/`important`/`tags` with the same `text`. -/
theorem C10_witness :
    ({ text := "hi", author := "alice", channel := "ops",
       important := true, tags := ["x"] } : SendMessageArgs).text
      = ({ text := "hi", author := "user", channel := "general",
           important := false, tags := [] } : SendMessageArgs).text ∧
    sendMessage
        { text := "hi", author := "alice", channel := "ops",
          important := true, tags := ["x"] } 1 "2026-01-01T00:00:00.000Z"
      = sendMessage
          { text := "hi", author := "user", channel := "general",
            important := false, tags := [] } 1 "2026-01-01T00:00:00.000Z" :=
  ⟨rfl, C10_result_independent_of_extra_args _ _ 1 "2026-01-01T00:00:00.000Z" rfl⟩

/-- Both counter-drawing operations stamp the pre-increment counter
value, stringified, as the message id. -/
theorem runOp_id (op : Op) (c : Nat) : (runOp op c).1.id = toString c := by
  cases op <;> rfl

/-- Both counter-drawing operations advance the counter by exactly
one (`idCounter++`). -/
theorem runOp_counter (op : Op) (c : Nat) : (runOp op c).2 = c + 1 := by
  cases op <;> rfl

/-- Every id issued from counter state `c` is at least `c`. -/
theorem issuedIds_lower (ops : List Op) (c : Nat) :
    ∀ x ∈ issuedIds ops c, c ≤ x := by
  induction ops generalizing c with
  | nil => intro x hx; simp [issuedIds] at hx
  | cons op rest ih =>
      intro x hx
      simp only [issuedIds, List.mem_cons] at hx
      rcases hx with rfl | hx
      · exact Nat.le_refl x
      · have h := ih (runOp op c).2 x hx
        rw [runOp_counter] at h
        omega

/-- The issued ids are pairwise strictly increasing in issuance
order. -/
theorem issuedIds_pairwise (ops : List Op) (c : Nat) :
    List.Pairwise (· < ·) (issuedIds ops c) := by
  induction ops generalizing c with
  | nil => simp [issuedIds]
  | cons op rest ih =>
      rw [issuedIds]
      refine List.Pairwise.cons ?_ (ih _)
      intro x hx
      have h := issuedIds_lower rest (runOp op c).2 x hx
      rw [runOp_counter] at h
      omega

/-- The ids of the messages produced by an interleaving are exactly the
stringified issued counter values, in order. -/
theorem runOps_map_id (ops : List Op) (c : Nat) :
    ((runOps ops c).1).map Message.id = (issuedIds ops c).map toString := by
  induction ops generalizing c with
  | nil => rfl
  | cons op rest ih =>
      simp only [runOps, issuedIds, List.map_cons, runOp_id]
      exact congrArg _ (ih _)

/-- After an interleaving of `n` counter-drawing operations the counter
has advanced by exactly `n`: it is never reset or reused. -/
theorem runOps_counter (ops : List Op) (c : Nat) :
    (runOps ops c).2 = c + ops.length := by
  induction ops generalizing c with
  | nil => simp [runOps]
  | cons op rest ih =>
      simp only [runOps, List.length_cons]
      rw [ih, runOp_counter]
      omega

/-- C2: for every interleaving of `sendMessage` calls and message
generator ticks starting from the initial counter 1, the sequence of
issued numeric id values starts at 1, is pairwise (hence adjacently)
strictly increasing in issuance order, has no duplicates, and the
counter ends at 1 plus the number of issues — never reused, never
reset; the produced messages carry exactly the stringified issued
values as their ids. -/
theorem C2_counter_monotonic (ops : List Op) :
    ((runOps ops idCounterInit).1).map Message.id
      = (issuedIds ops idCounterInit).map toString ∧
    (issuedIds ops idCounterInit).head?
      = (if ops.isEmpty then none else some 1) ∧
    List.Pairwise (· < ·) (issuedIds ops idCounterInit) ∧
    List.Chain' (· < ·) (issuedIds ops idCounterInit) ∧
    (issuedIds ops idCounterInit).Nodup ∧
    (runOps ops idCounterInit).2 = idCounterInit + ops.length := by
  refine ⟨runOps_map_id ops _, ?_, issuedIds_pairwise ops _,
    (issuedIds_pairwise ops _).chain',
    (issuedIds_pairwise ops _).imp (fun h => Nat.ne_of_lt h),
    runOps_counter ops _⟩
  cases ops <;> rfl

/-- Publishing preserves the set of registered subscriptions (it only
touches queues). -/
theorem pubsubPublish_length (topic : String) (p : Payload)
    (subs : List Subscriber) :
    (pubsubPublish topic p subs).length = subs.length := by
  simp [pubsubPublish]

/-- C6: a subscriber registered before two publishes P1 then P2 on its
topic ends with exactly `P1, P2` appended, in that order, at the tail
of its queue — the queue is consumed front-first, so the subscriber
observes P1 before P2 (FIFO per subscription). -/
theorem C6_fifo_per_subscription (subs : List Subscriber) (topic : String)
    (p1 p2 : Payload) (i : Nat) (h : i < subs.length)
    (ht : subs[i].topic = topic) :
    ∃ h2 : i < (pubsubPublish topic p2 (pubsubPublish topic p1 subs)).length,
      (pubsubPublish topic p2 (pubsubPublish topic p1 subs))[i].queue
        = subs[i].queue ++ [p1, p2] := by
  refine ⟨by simp [pubsubPublish_length]; omega, ?_⟩
  simp [pubsubPublish, ht]

/-- Witness for C6 at a concrete registry: one subscriber on topic
`"T"`, two distinct settings payloads. -/
theorem C6_fifo_witness :
    (0 < ([{ topic := "T", queue := [] }] : List Subscriber).length) ∧
    (([{ topic := "T", queue := [] }] : List Subscriber)[0].topic = "T") ∧
    ∃ h2 : 0 < (pubsubPublish "T"
        (Payload.settings { theme := "light", lang := "en", updatedAt := "u" })
        (pubsubPublish "T"
          (Payload.settings { theme := "dark", lang := "ja", updatedAt := "t" })
          [{ topic := "T", queue := [] }])).length,
      (pubsubPublish "T"
        (Payload.settings { theme := "light", lang := "en", updatedAt := "u" })
        (pubsubPublish "T"
          (Payload.settings { theme := "dark", lang := "ja", updatedAt := "t" })
          [{ topic := "T", queue := [] }]))[0].queue
        = ([{ topic := "T", queue := [] }] : List Subscriber)[0].queue ++
            [Payload.settings { theme := "dark", lang := "ja", updatedAt := "t" },
             Payload.settings { theme := "light", lang := "en", updatedAt := "u" }] :=
  ⟨Nat.zero_lt_one, rfl,
   C6_fifo_per_subscription [{ topic := "T", queue := [] }] "T"
     (Payload.settings { theme := "dark", lang := "ja", updatedAt := "t" })
     (Payload.settings { theme := "light", lang := "en", updatedAt := "u" })
     0 Nat.zero_lt_one rfl⟩

/-- C5: every status-generator tick publishes a SystemStatus with
`online = true` and `load` — the random draw scaled into
`[0.1, 1.6)` and rounded to two decimals — lying in the closed
interval `[1/10, 8/5]` and equal to an integer number of
hundredths. -/
theorem C5_status_tick (r : ℚ) (now : String) (h0 : 0 ≤ r) (h1 : r < 1) :
    (statusGeneratorTick r now).1.online = true ∧
    1 / 10 ≤ (statusGeneratorTick r now).1.load ∧
    (statusGeneratorTick r now).1.load ≤ 8 / 5 ∧
    (∃ n : ℤ, (statusGeneratorTick r now).1.load = (n : ℚ) / 100) ∧
    (statusGeneratorTick r now).2.topic = SYSTEM_STATUS_CHANGED ∧
    (statusGeneratorTick r now).2.payload
      = Payload.status (statusGeneratorTick r now).1 := by
  have hload : (statusGeneratorTick r now).1.load
      = ((round (100 * (r * (3 / 2) + 1 / 10)) : ℤ) : ℚ) / 100 := rfl
  have hrlb : (10 : ℤ) ≤ round (100 * (r * (3 / 2) + 1 / 10)) := by
    rw [round_eq]
    refine Int.le_floor.mpr ?_
    push_cast
    linarith
  have hrub : round (100 * (r * (3 / 2) + 1 / 10)) ≤ 160 := by
    rw [round_eq]
    have hlt : ⌊100 * (r * (3 / 2) + 1 / 10) + 1 / 2⌋ < 161 := by
      refine Int.floor_lt.mpr ?_
      push_cast
      linarith
    omega
  refine ⟨rfl, ?_, ?_, ⟨round (100 * (r * (3 / 2) + 1 / 10)), hload⟩, rfl, rfl⟩
  · rw [hload]
    have hc : ((10 : ℤ) : ℚ) ≤ ((round (100 * (r * (3 / 2) + 1 / 10)) : ℤ) : ℚ) := by
      exact_mod_cast hrlb
    push_cast at hc
    linarith
  · rw [hload]
    have hc : ((round (100 * (r * (3 / 2) + 1 / 10)) : ℤ) : ℚ) ≤ ((160 : ℤ) : ℚ) := by
      exact_mod_cast hrub
    push_cast at hc
    linarith

/-- Witness for C5 at the concrete draw `r = 1/2`. -/
theorem C5_witness :
    (0 : ℚ) ≤ 1 / 2 ∧ (1 / 2 : ℚ) < 1 ∧
    1 / 10 ≤ (statusGeneratorTick (1 / 2) "2026-01-01T00:00:00.000Z").1.load ∧
    (statusGeneratorTick (1 / 2) "2026-01-01T00:00:00.000Z").1.load ≤ 8 / 5 :=
  ⟨by norm_num, by norm_num,
   (C5_status_tick (1 / 2) "2026-01-01T00:00:00.000Z" (by norm_num)
     (by norm_num)).2.1,
   (C5_status_tick (1 / 2) "2026-01-01T00:00:00.000Z" (by norm_num)
     (by norm_num)).2.2.1⟩

end GraphQLSub
